import Mathlib

/-!
Shallow embedding of the capital-call accounting, NAV and metrics subsystems
of the Valentine repository (a VC back-office application).

Monetary amounts (Prisma `Float` columns, JS numbers run through Decimal.js in
the NAV service) are modelled as rationals; timestamps (`Date` values compared
with `<`/`getTime`) are modelled as integers.  Database rows are modelled as
lists of records, a Prisma `update` of a row found by `findFirst` as an
update of the first matching list element, and the in-memory `Map` stores of
the NAV/Updates services as insertion-ordered association lists.
`JS Array.prototype.sort` (a stable comparator sort) is modelled by
`List.insertionSort`.
-/

namespace Valentine

/-- Prisma enum `CapitalCallStatus`. -/
inductive CapitalCallStatus where
  | PENDING
  | PARTIALLY_PAID
  | FULLY_PAID
  | OVERDUE
  deriving DecidableEq

/-- Prisma enum `PaymentStatus` (the status of a `CapitalCallResponse`). -/
inductive PaymentStatus where
  | PENDING
  | PAID
  | PARTIALLY_PAID
  | LATE
  deriving DecidableEq

/-- Prisma model `LimitedPartner` (fields used by the accounting code). -/
structure LimitedPartner where
  id : Nat
  commitment : ℚ
  fundId : Nat
  deriving DecidableEq

/-- Prisma model `CapitalCall` (fields used by the accounting code). -/
structure CapitalCall where
  id : Nat
  date : Int
  dueDate : Int
  amount : ℚ
  percentage : ℚ
  status : CapitalCallStatus
  fundId : Nat
  deriving DecidableEq

/-- Prisma model `CapitalCallResponse` (fields used by the accounting code). -/
structure CapitalCallResponse where
  amountPaid : ℚ
  datePaid : Option Int
  status : PaymentStatus
  notes : Option Nat
  lpId : Nat
  capitalCallId : Nat
  deriving DecidableEq

/-- Fund together with its `limitedPartners` relation, as loaded by
`prisma.fund.findFirst({ include: { limitedPartners: true } })`. -/
structure Fund where
  id : Nat
  limitedPartners : List LimitedPartner
  deriving DecidableEq

/-- The capital-call and response tables touched by the CLI commands. -/
structure DB where
  calls : List CapitalCall
  responses : List CapitalCallResponse
  deriving DecidableEq

/-- `responses.reduce((sum, response) => sum + response.amountPaid, 0)`,
as written in `updateCapitalCallStatus` (src/cli/commands/capital-call.ts). -/
def totalPaidOf (responses : List CapitalCallResponse) : ℚ :=
  responses.foldl (fun sum response => sum + response.amountPaid) 0

/-- The status derivation of `updateCapitalCallStatus`
(src/cli/commands/capital-call.ts): `totalExpected` is `capitalCall.amount`,
`totalPaid` the reduce above, and the status the if/else-if chain, with
`new Date()` passed in explicitly as `now`. -/
def recomputeCallStatus (call : CapitalCall)
    (responses : List CapitalCallResponse) (now : Int) : CapitalCallStatus :=
  let totalExpected := call.amount
  let totalPaid := totalPaidOf responses
  if totalPaid ≥ totalExpected then .FULLY_PAID
  else if totalPaid > 0 then .PARTIALLY_PAID
  else if now > call.dueDate then .OVERDUE
  else .PENDING

lemma foldl_add_eq_sum (f : α → ℚ) (l : List α) (a : ℚ) :
    l.foldl (fun s x => s + f x) a = a + (l.map f).sum := by
  induction l generalizing a with
  | nil => simp
  | cons x xs ih => simp [ih, add_assoc]

lemma totalPaidOf_eq_sum (responses : List CapitalCallResponse) :
    totalPaidOf responses = (responses.map (·.amountPaid)).sum := by
  simp [totalPaidOf, foldl_add_eq_sum]

/-- `fund.limitedPartners.reduce((sum, lp) => sum + lp.commitment, 0)` from the
capital-call `create` action. -/
def totalCommitments (fund : Fund) : ℚ :=
  fund.limitedPartners.foldl (fun sum lp => sum + lp.commitment) 0

/-- The only failure of the capital-call `create` action once the fund is
found and the caller authorized: the early return printing
`Cannot calculate percentage: No LP commitments found for this fund.`. -/
inductive CreateCallError where
  | noCommitments
  deriving DecidableEq

/-- The capital-call `create` action (src/cli/commands/capital-call.ts),
after the fund lookup and permission check. `percentageOpt` is the optional
`--percentage` flag; a supplied value of `0` is JS-falsy (`if (!percentage)`)
and triggers derivation just like an absent one. `callId` stands for the
cuid the store assigns the new row; `now` is `new Date()`. On the early
return no row has been written, so the database comes back unchanged. -/
def createCapitalCall (fund : Fund) (amount : ℚ) (now dueDate : Int)
    (percentageOpt : Option ℚ) (callId : Nat) (db : DB) :
    DB × Except CreateCallError CapitalCall :=
  let supplied := percentageOpt.bind (fun p => if p = 0 then none else some p)
  match supplied with
  | some p => createWith p
  | none =>
      if totalCommitments fund > 0 then
        createWith (amount / totalCommitments fund * 100)
      else
        (db, .error .noCommitments)
where
  createWith (percentage : ℚ) : DB × Except CreateCallError CapitalCall :=
    let call : CapitalCall :=
      { id := callId, date := now, dueDate := dueDate, amount := amount,
        percentage := percentage, status := .PENDING, fundId := fund.id }
    let newResponses := fund.limitedPartners.map (fun lp =>
      { amountPaid := 0, datePaid := none, status := .PENDING, notes := none,
        lpId := lp.id, capitalCallId := callId : CapitalCallResponse })
    ({ calls := db.calls ++ [call], responses := db.responses ++ newResponses },
     .ok call)

/-- Prisma `findFirst` followed by `update` on the row it returned: replace
the first element satisfying `p` by its image under `f`. -/
def updateFirst (p : α → Bool) (f : α → α) : List α → List α
  | [] => []
  | x :: xs => if p x then f x :: xs else x :: updateFirst p f xs

/-- Failures of the `record-payment` action after the fund-permission check:
the capital call, or the LP's response row for it, does not exist. -/
inductive PaymentError where
  | callNotFound
  | responseNotFound
  deriving DecidableEq

/-- What the `record-payment` action reports back on success: the computed
`expectedAmount` and the updated response row. -/
structure PaymentResult where
  expectedAmount : ℚ
  response : CapitalCallResponse
  deriving DecidableEq

/-- The `where` clause of `prisma.capitalCallResponse.findFirst` in the
`record-payment` action: `lpId` and `capitalCallId` both match. -/
def respMatches (lpId capitalCallId : Nat) (r : CapitalCallResponse) : Bool :=
  r.lpId == lpId && r.capitalCallId == capitalCallId

/-- The `data` object of `prisma.capitalCallResponse.update` in the
`record-payment` action: overwrite `amountPaid`, `datePaid`, `notes` and
`status` on the found row. -/
def paymentUpdate (amount : ℚ) (datePaid : Int) (notes : Option Nat)
    (st : PaymentStatus) (r : CapitalCallResponse) : CapitalCallResponse :=
  { r with amountPaid := amount, datePaid := some datePaid,
           notes := notes, status := st }

/-- The `data` object of `prisma.capitalCall.update` in
`updateCapitalCallStatus`: overwrite `status`. -/
def setCallStatus (s : CapitalCallStatus) (c : CapitalCall) : CapitalCall :=
  { c with status := s }

/-- The `record-payment` action (src/cli/commands/capital-call.ts), after the
authentication, permission and LP-name lookups: find the capital call, find
the LP's response row, compute
`expectedAmount = lp.commitment * capitalCall.percentage / 100`, overwrite the
response with the payment (status `PAID` iff `amount >= expectedAmount`, else
`PARTIALLY_PAID`), then run `updateCapitalCallStatus` over all of the call's
responses. `now` is the `new Date()` read inside `updateCapitalCallStatus`. -/
def recordPayment (db : DB) (lp : LimitedPartner) (capitalCallId : Nat)
    (amount : ℚ) (datePaid : Int) (notes : Option Nat) (now : Int) :
    DB × Except PaymentError PaymentResult :=
  match db.calls.find? (fun c => c.id == capitalCallId) with
  | none => (db, .error .callNotFound)
  | some capitalCall =>
    match db.responses.find? (respMatches lp.id capitalCallId) with
    | none => (db, .error .responseNotFound)
    | some response =>
      let expectedAmount := lp.commitment * capitalCall.percentage / 100
      let newStatus : PaymentStatus :=
        if amount ≥ expectedAmount then .PAID else .PARTIALLY_PAID
      let responses' := updateFirst (respMatches lp.id capitalCallId)
        (paymentUpdate amount datePaid notes newStatus) db.responses
      let callResponses := responses'.filter (fun r => r.capitalCallId == capitalCallId)
      let newCallStatus := recomputeCallStatus capitalCall callResponses now
      let calls' := updateFirst (fun c => c.id == capitalCallId)
        (setCallStatus newCallStatus) db.calls
      ({ calls := calls', responses := responses' },
       .ok { expectedAmount := expectedAmount,
             response := paymentUpdate amount datePaid notes newStatus response })

lemma updateFirst_updateFirst (p : α → Bool) (f g : α → α) (l : List α)
    (hp : ∀ x, p (f x) = p x) :
    updateFirst p g (updateFirst p f l) = updateFirst p (fun x => g (f x)) l := by
  induction l with
  | nil => rfl
  | cons x xs ih =>
      by_cases h : p x = true
      · simp [updateFirst, h, hp]
      · simp only [Bool.not_eq_true] at h
        simp [updateFirst, h, ih]

lemma find?_updateFirst (p : α → Bool) (f : α → α) (l : List α)
    (hp : ∀ x, p (f x) = p x) :
    (updateFirst p f l).find? p = (l.find? p).map f := by
  induction l with
  | nil => rfl
  | cons x xs ih =>
      by_cases h : p x = true
      · simp [updateFirst, h, List.find?_cons, hp]
      · simp only [Bool.not_eq_true] at h
        simp [updateFirst, h, List.find?_cons, ih]

lemma respMatches_paymentUpdate (i k : Nat) (a : ℚ) (d : Int) (n : Option Nat)
    (st : PaymentStatus) (r : CapitalCallResponse) :
    respMatches i k (paymentUpdate a d n st r) = respMatches i k r := rfl

lemma paymentUpdate_paymentUpdate (a a' : ℚ) (d d' : Int) (n n' : Option Nat)
    (st st' : PaymentStatus) (r : CapitalCallResponse) :
    paymentUpdate a d n st (paymentUpdate a' d' n' st' r) =
      paymentUpdate a d n st r := rfl

lemma setCallStatus_setCallStatus (s s' : CapitalCallStatus) (c : CapitalCall) :
    setCallStatus s (setCallStatus s' c) = setCallStatus s c := rfl

lemma callId_setCallStatus (s : CapitalCallStatus) (c : CapitalCall) (k : Nat) :
    ((setCallStatus s c).id == k) = (c.id == k) := rfl

lemma recomputeCallStatus_setCallStatus (s : CapitalCallStatus)
    (c : CapitalCall) (rs : List CapitalCallResponse) (now : Int) :
    recomputeCallStatus (setCallStatus s c) rs now =
      recomputeCallStatus c rs now := rfl

lemma percentage_setCallStatus (s : CapitalCallStatus) (c : CapitalCall) :
    (setCallStatus s c).percentage = c.percentage := rfl

lemma find?_updateFirst_setCallStatus (k : Nat) (s : CapitalCallStatus)
    (l : List CapitalCall) :
    (updateFirst (fun c => c.id == k) (setCallStatus s) l).find?
        (fun c => c.id == k)
      = (l.find? (fun c => c.id == k)).map (setCallStatus s) :=
  find?_updateFirst _ _ _ (fun c => callId_setCallStatus s c k)

lemma find?_updateFirst_paymentUpdate (i k : Nat) (a : ℚ) (d : Int)
    (n : Option Nat) (st : PaymentStatus) (l : List CapitalCallResponse) :
    (updateFirst (respMatches i k) (paymentUpdate a d n st) l).find?
        (respMatches i k)
      = (l.find? (respMatches i k)).map (paymentUpdate a d n st) :=
  find?_updateFirst _ _ _ (fun r => respMatches_paymentUpdate i k a d n st r)

lemma updateFirst_paymentUpdate_twice (i k : Nat) (a b : ℚ) (d1 d2 : Int)
    (n1 n2 : Option Nat) (stA stB : PaymentStatus)
    (l : List CapitalCallResponse) :
    updateFirst (respMatches i k) (paymentUpdate b d2 n2 stB)
        (updateFirst (respMatches i k) (paymentUpdate a d1 n1 stA) l)
      = updateFirst (respMatches i k) (paymentUpdate b d2 n2 stB) l := by
  rw [updateFirst_updateFirst _ _ _ _
    (fun r => respMatches_paymentUpdate i k a d1 n1 stA r)]
  simp only [paymentUpdate_paymentUpdate]

lemma updateFirst_setCallStatus_twice (k : Nat) (sA sB : CapitalCallStatus)
    (l : List CapitalCall) :
    updateFirst (fun c => c.id == k) (setCallStatus sB)
        (updateFirst (fun c => c.id == k) (setCallStatus sA) l)
      = updateFirst (fun c => c.id == k) (setCallStatus sB) l := by
  rw [updateFirst_updateFirst _ _ _ _ (fun c => callId_setCallStatus sA c k)]
  simp only [setCallStatus_setCallStatus]

/-- Fully unfolded behaviour of `recordPayment` when both the capital call and
the LP's response row are found. -/
lemma recordPayment_of_found (db : DB) (lp : LimitedPartner)
    (capitalCallId : Nat) (amount : ℚ) (datePaid : Int) (notes : Option Nat)
    (now : Int) (call : CapitalCall) (r0 : CapitalCallResponse)
    (hcall : db.calls.find? (fun c => c.id == capitalCallId) = some call)
    (hresp : db.responses.find? (respMatches lp.id capitalCallId) = some r0) :
    recordPayment db lp capitalCallId amount datePaid notes now =
      ({ calls := updateFirst (fun c => c.id == capitalCallId)
           (setCallStatus (recomputeCallStatus call
             ((updateFirst (respMatches lp.id capitalCallId)
                (paymentUpdate amount datePaid notes
                  (if amount ≥ lp.commitment * call.percentage / 100
                   then .PAID else .PARTIALLY_PAID)) db.responses).filter
               (fun r => r.capitalCallId == capitalCallId)) now)) db.calls,
         responses := updateFirst (respMatches lp.id capitalCallId)
           (paymentUpdate amount datePaid notes
             (if amount ≥ lp.commitment * call.percentage / 100
              then .PAID else .PARTIALLY_PAID)) db.responses },
       .ok { expectedAmount := lp.commitment * call.percentage / 100,
             response := paymentUpdate amount datePaid notes
               (if amount ≥ lp.commitment * call.percentage / 100
                then .PAID else .PARTIALLY_PAID) r0 }) := by
  simp [recordPayment, hcall, hresp]

/-- Two successive payments against the same response row: the second one
overwrites every field the first one set, so the pair of payments acts on the
database exactly like the second payment alone. -/
lemma recordPayment_twice (db : DB) (lp : LimitedPartner) (capitalCallId : Nat)
    (a b : ℚ) (d1 d2 : Int) (n1 n2 : Option Nat) (t1 t2 : Int)
    (call : CapitalCall) (r0 : CapitalCallResponse)
    (hcall : db.calls.find? (fun c => c.id == capitalCallId) = some call)
    (hresp : db.responses.find? (respMatches lp.id capitalCallId) = some r0) :
    recordPayment (recordPayment db lp capitalCallId a d1 n1 t1).1
        lp capitalCallId b d2 n2 t2
      = recordPayment db lp capitalCallId b d2 n2 t2 := by
  rw [recordPayment_of_found db lp capitalCallId a d1 n1 t1 call r0 hcall hresp]
  have hcall1 : (updateFirst (fun c => c.id == capitalCallId)
      (setCallStatus (recomputeCallStatus call
        ((updateFirst (respMatches lp.id capitalCallId)
           (paymentUpdate a d1 n1
             (if a ≥ lp.commitment * call.percentage / 100
              then .PAID else .PARTIALLY_PAID)) db.responses).filter
          (fun r => r.capitalCallId == capitalCallId)) t1)) db.calls).find?
      (fun c => c.id == capitalCallId)
      = some (setCallStatus (recomputeCallStatus call
          ((updateFirst (respMatches lp.id capitalCallId)
             (paymentUpdate a d1 n1
               (if a ≥ lp.commitment * call.percentage / 100
                then .PAID else .PARTIALLY_PAID)) db.responses).filter
            (fun r => r.capitalCallId == capitalCallId)) t1) call) := by
    simp only [find?_updateFirst_setCallStatus, hcall, Option.map_some']
  have hresp1 : (updateFirst (respMatches lp.id capitalCallId)
      (paymentUpdate a d1 n1
        (if a ≥ lp.commitment * call.percentage / 100
         then .PAID else .PARTIALLY_PAID)) db.responses).find?
      (respMatches lp.id capitalCallId)
      = some (paymentUpdate a d1 n1
          (if a ≥ lp.commitment * call.percentage / 100
           then .PAID else .PARTIALLY_PAID) r0) := by
    simp only [find?_updateFirst_paymentUpdate, hresp, Option.map_some']
  rw [recordPayment_of_found _ lp capitalCallId b d2 n2 t2 _ _ hcall1 hresp1,
    recordPayment_of_found db lp capitalCallId b d2 n2 t2 call r0 hcall hresp]
  simp only [percentage_setCallStatus, recomputeCallStatus_setCallStatus,
    updateFirst_paymentUpdate_twice, updateFirst_setCallStatus_twice,
    paymentUpdate_paymentUpdate]

/-- Claim C1: for every capital call, `recomputeCallStatus` sets the call's
status as a pure function of `totalPaid`, the sum of `amountPaid` over all of
the call's responses: `FULLY_PAID` if `totalPaid ≥ call.amount`; otherwise
`PARTIALLY_PAID` if `totalPaid > 0`; otherwise `OVERDUE` if the current time
is past `call.dueDate`; otherwise `PENDING`. -/
theorem recomputeCallStatus_cases (call : CapitalCall)
    (responses : List CapitalCallResponse) (now : Int) :
    recomputeCallStatus call responses now =
      (if (responses.map (·.amountPaid)).sum ≥ call.amount then .FULLY_PAID
       else if (responses.map (·.amountPaid)).sum > 0 then .PARTIALLY_PAID
       else if now > call.dueDate then .OVERDUE
       else .PENDING) := by
  simp [recomputeCallStatus, totalPaidOf_eq_sum]

/-- Claim C2: for every fund whose total LP commitment is strictly positive,
`createCapitalCall` with amount `X` and no percentage supplied persists a
`CapitalCall` whose percentage is `X / C * 100` and whose status is `PENDING`,
and creates exactly one `CapitalCallResponse` per LP existing in the fund at
creation time, each with `amountPaid = 0` and status `PENDING`. -/
theorem createCapitalCall_derives_percentage (fund : Fund) (amount : ℚ)
    (now dueDate : Int) (callId : Nat) (db : DB)
    (hC : 0 < totalCommitments fund) :
    ∃ call, (createCapitalCall fund amount now dueDate none callId db).2 = .ok call ∧
      call.percentage = amount / totalCommitments fund * 100 ∧
      call.status = .PENDING ∧
      (createCapitalCall fund amount now dueDate none callId db).1.calls
        = db.calls ++ [call] ∧
      (createCapitalCall fund amount now dueDate none callId db).1.responses
        = db.responses ++ fund.limitedPartners.map (fun lp =>
            { amountPaid := 0, datePaid := none, status := .PENDING,
              notes := none, lpId := lp.id, capitalCallId := callId }) ∧
      (createCapitalCall fund amount now dueDate none callId db).1.responses.length
        = db.responses.length + fund.limitedPartners.length := by
  refine ⟨{ id := callId, date := now, dueDate := dueDate, amount := amount,
            percentage := amount / totalCommitments fund * 100,
            status := .PENDING, fundId := fund.id }, ?_, rfl, rfl, ?_, ?_, ?_⟩ <;>
    simp [createCapitalCall, createCapitalCall.createWith, hC]

/-- A fund with two LPs committing 10,000,000 and 1,000,000. -/
def fundEx : Fund :=
  { id := 1,
    limitedPartners :=
      [{ id := 11, commitment := 10000000, fundId := 1 },
       { id := 12, commitment := 1000000, fundId := 1 }] }

/-- An empty database. -/
def dbEmpty : DB := { calls := [], responses := [] }

/-- Witness for C2: calling 1,100,000 against `fundEx` (total commitment
11,000,000) derives the percentage 10 and seeds one pending response per LP. -/
theorem createCapitalCall_derives_percentage_witness :
    0 < totalCommitments fundEx ∧
    ∃ call, (createCapitalCall fundEx 1100000 0 30 none 7 dbEmpty).2 = .ok call ∧
      call.percentage = 1100000 / totalCommitments fundEx * 100 ∧
      call.status = .PENDING ∧
      (createCapitalCall fundEx 1100000 0 30 none 7 dbEmpty).1.calls
        = dbEmpty.calls ++ [call] ∧
      (createCapitalCall fundEx 1100000 0 30 none 7 dbEmpty).1.responses
        = dbEmpty.responses ++ fundEx.limitedPartners.map (fun lp =>
            { amountPaid := 0, datePaid := none, status := .PENDING,
              notes := none, lpId := lp.id, capitalCallId := 7 }) ∧
      (createCapitalCall fundEx 1100000 0 30 none 7 dbEmpty).1.responses.length
        = dbEmpty.responses.length + fundEx.limitedPartners.length :=
  ⟨by norm_num [totalCommitments, fundEx],
   createCapitalCall_derives_percentage fundEx 1100000 0 30 7 dbEmpty
     (by norm_num [totalCommitments, fundEx])⟩

/-- Claim C5: for every fund with zero LPs or zero total LP commitment,
`createCapitalCall` with no percentage argument fails with the
no-commitments error, and neither a `CapitalCall` nor any response row is
created: the database comes back unchanged. -/
theorem createCapitalCall_no_commitments (fund : Fund) (amount : ℚ)
    (now dueDate : Int) (callId : Nat) (db : DB)
    (h : fund.limitedPartners = [] ∨ totalCommitments fund = 0) :
    createCapitalCall fund amount now dueDate none callId db
      = (db, .error .noCommitments) := by
  have h0 : totalCommitments fund = 0 := by
    rcases h with h | h
    · simp [totalCommitments, h]
    · exact h
  simp [createCapitalCall, h0]

/-- A fund with no limited partners. -/
def fundNoLPs : Fund := { id := 2, limitedPartners := [] }

/-- Witness for C5: creating a call on an LP-less fund with no percentage
fails and writes nothing. -/
theorem createCapitalCall_no_commitments_witness :
    (fundNoLPs.limitedPartners = [] ∨ totalCommitments fundNoLPs = 0) ∧
    createCapitalCall fundNoLPs 500000 0 30 none 7 dbEmpty
      = (dbEmpty, .error .noCommitments) :=
  ⟨Or.inl rfl,
   createCapitalCall_no_commitments fundNoLPs 500000 0 30 7 dbEmpty (Or.inl rfl)⟩

/-- Claim C4: for every `recordPayment` where the LP has a response row for
the call, the response's status is set to `PAID` if
`amountPaid ≥ expectedAmount` and to `PARTIALLY_PAID` otherwise (no `LATE` or
zero-payment distinction), where
`expectedAmount = LP.commitment * call.percentage / 100`; the updated row is
the one persisted for that LP and call. -/
theorem recordPayment_response_status (db : DB) (lp : LimitedPartner)
    (capitalCallId : Nat) (amount : ℚ) (datePaid : Int) (notes : Option Nat)
    (now : Int) (call : CapitalCall) (r0 : CapitalCallResponse)
    (hcall : db.calls.find? (fun c => c.id == capitalCallId) = some call)
    (hresp : db.responses.find? (respMatches lp.id capitalCallId) = some r0) :
    ∃ res, (recordPayment db lp capitalCallId amount datePaid notes now).2 = .ok res ∧
      res.expectedAmount = lp.commitment * call.percentage / 100 ∧
      res.response.amountPaid = amount ∧
      res.response.status =
        (if amount ≥ lp.commitment * call.percentage / 100
         then PaymentStatus.PAID else PaymentStatus.PARTIALLY_PAID) ∧
      (recordPayment db lp capitalCallId amount datePaid notes now).1.responses.find?
          (respMatches lp.id capitalCallId) = some res.response := by
  refine ⟨{ expectedAmount := lp.commitment * call.percentage / 100,
            response := paymentUpdate amount datePaid notes
              (if amount ≥ lp.commitment * call.percentage / 100
               then .PAID else .PARTIALLY_PAID) r0 }, ?_, rfl, rfl, rfl, ?_⟩ <;>
    simp [recordPayment, hcall, hresp, find?_updateFirst_paymentUpdate]

/-- A limited partner with a 10,000,000 commitment. -/
def lpEx : LimitedPartner := { id := 11, commitment := 10000000, fundId := 1 }

/-- A 10% capital call of 1,100,000 due at time 30. -/
def callEx : CapitalCall :=
  { id := 7, date := 0, dueDate := 30, amount := 1100000, percentage := 10,
    status := .PENDING, fundId := 1 }

/-- The pending response row of `lpEx` for `callEx`. -/
def respEx : CapitalCallResponse :=
  { amountPaid := 0, datePaid := none, status := .PENDING, notes := none,
    lpId := 11, capitalCallId := 7 }

/-- A database holding `callEx` and `respEx`. -/
def dbEx : DB := { calls := [callEx], responses := [respEx] }

/-- Witness for C4: paying 500,000 against an expected 1,000,000 yields a
`PARTIALLY_PAID` response holding exactly the paid amount. -/
theorem recordPayment_response_status_witness :
    dbEx.calls.find? (fun c => c.id == 7) = some callEx ∧
    dbEx.responses.find? (respMatches lpEx.id 7) = some respEx ∧
    ∃ res, (recordPayment dbEx lpEx 7 500000 10 none 10).2 = .ok res ∧
      res.expectedAmount = lpEx.commitment * callEx.percentage / 100 ∧
      res.response.amountPaid = 500000 ∧
      res.response.status =
        (if (500000 : ℚ) ≥ lpEx.commitment * callEx.percentage / 100
         then PaymentStatus.PAID else PaymentStatus.PARTIALLY_PAID) ∧
      (recordPayment dbEx lpEx 7 500000 10 none 10).1.responses.find?
          (respMatches lpEx.id 7) = some res.response :=
  ⟨rfl, rfl,
   recordPayment_response_status dbEx lpEx 7 500000 10 none 10 callEx respEx rfl rfl⟩

/-- Claim C8: for every capital call, LP and payment amount, applying
`recordPayment` twice with the same amount (and the same payment date, notes
and clock) yields the same database state and the same result as applying it
once. -/
theorem recordPayment_idempotent (db : DB) (lp : LimitedPartner)
    (capitalCallId : Nat) (amount : ℚ) (datePaid : Int) (notes : Option Nat)
    (now : Int) (call : CapitalCall) (r0 : CapitalCallResponse)
    (hcall : db.calls.find? (fun c => c.id == capitalCallId) = some call)
    (hresp : db.responses.find? (respMatches lp.id capitalCallId) = some r0) :
    recordPayment (recordPayment db lp capitalCallId amount datePaid notes now).1
        lp capitalCallId amount datePaid notes now
      = recordPayment db lp capitalCallId amount datePaid notes now :=
  recordPayment_twice db lp capitalCallId amount amount datePaid datePaid
    notes notes now now call r0 hcall hresp

/-- Witness for C8: re-recording the same 500,000 payment leaves the database
and the reported result untouched. -/
theorem recordPayment_idempotent_witness :
    dbEx.calls.find? (fun c => c.id == 7) = some callEx ∧
    dbEx.responses.find? (respMatches lpEx.id 7) = some respEx ∧
    recordPayment (recordPayment dbEx lpEx 7 500000 10 none 10).1
        lpEx 7 500000 10 none 10
      = recordPayment dbEx lpEx 7 500000 10 none 10 :=
  ⟨rfl, rfl,
   recordPayment_idempotent dbEx lpEx 7 500000 10 none 10 callEx respEx rfl rfl⟩

/-- Claim C10: `recordPayment` overwrites `amountPaid` with the supplied
amount rather than adding to any previously recorded payment: after two
successive payments of `a` then `b` for the same call and LP, the database is
exactly the one produced by recording `b` alone, and the LP's response row
carries `amountPaid = b`. -/
theorem recordPayment_overwrites (db : DB) (lp : LimitedPartner)
    (capitalCallId : Nat) (a b : ℚ) (d1 d2 : Int) (n1 n2 : Option Nat)
    (t1 t2 : Int) (call : CapitalCall) (r0 : CapitalCallResponse)
    (hcall : db.calls.find? (fun c => c.id == capitalCallId) = some call)
    (hresp : db.responses.find? (respMatches lp.id capitalCallId) = some r0) :
    recordPayment (recordPayment db lp capitalCallId a d1 n1 t1).1
        lp capitalCallId b d2 n2 t2
      = recordPayment db lp capitalCallId b d2 n2 t2 ∧
    ((recordPayment (recordPayment db lp capitalCallId a d1 n1 t1).1
        lp capitalCallId b d2 n2 t2).1.responses.find?
          (respMatches lp.id capitalCallId)).map (·.amountPaid) = some b := by
  have h := recordPayment_twice db lp capitalCallId a b d1 d2 n1 n2 t1 t2
    call r0 hcall hresp
  refine ⟨h, ?_⟩
  rw [h, recordPayment_of_found db lp capitalCallId b d2 n2 t2 call r0 hcall hresp]
  simp [find?_updateFirst_paymentUpdate, hresp, paymentUpdate]

/-- Witness for C10: paying 300,000 and then 500,000 leaves `amountPaid` at
500,000 — the database equals the one where only 500,000 was recorded. -/
theorem recordPayment_overwrites_witness :
    dbEx.calls.find? (fun c => c.id == 7) = some callEx ∧
    dbEx.responses.find? (respMatches lpEx.id 7) = some respEx ∧
    (recordPayment (recordPayment dbEx lpEx 7 300000 5 none 5).1
        lpEx 7 500000 10 none 10
      = recordPayment dbEx lpEx 7 500000 10 none 10 ∧
    ((recordPayment (recordPayment dbEx lpEx 7 300000 5 none 5).1
        lpEx 7 500000 10 none 10).1.responses.find?
          (respMatches lpEx.id 7)).map (·.amountPaid) = some 500000) :=
  ⟨rfl, rfl,
   recordPayment_overwrites dbEx lpEx 7 300000 500000 5 10 none none 5 10
     callEx respEx rfl rfl⟩

/-- A `CapitalCallResponse` joined with its `capitalCall` row, as the two
statement queries load it
(`include: { responses: { include: { capitalCall: true } } }`). -/
structure ResponseWithCall where
  amountPaid : ℚ
  datePaid : Option Int
  status : PaymentStatus
  capitalCall : CapitalCall
  deriving DecidableEq

/-- The summary block of an LP capital-account statement. -/
structure LPStatement where
  commitment : ℚ
  totalCalled : ℚ
  totalPaid : ℚ
  outstandingBalance : ℚ
  remainingCommitment : ℚ
  deriving DecidableEq

/-- The statement figures computed by the CLI `lp statement` action
(src/cli/commands/lp.ts): `totalCalled` reduces
`capitalCall.amount * (capitalCall.percentage / 100)` over the LP's
responses, `outstandingBalance = totalCalled - totalPaid`,
`remainingCommitment = commitment - totalCalled`. -/
def cliStatement (commitment : ℚ) (responses : List ResponseWithCall) :
    LPStatement :=
  let totalCalled := responses.foldl
    (fun sum r => sum + r.capitalCall.amount * (r.capitalCall.percentage / 100)) 0
  let totalPaid := responses.foldl (fun sum r => sum + r.amountPaid) 0
  { commitment := commitment, totalCalled := totalCalled, totalPaid := totalPaid,
    outstandingBalance := totalCalled - totalPaid,
    remainingCommitment := commitment - totalCalled }

/-- The statement figures computed by the MCP `lp.statement` route
(src/src/app/mcp/lp.statement/route.ts): `totalCalled` reduces the raw
`call.amount`, `outstandingBalance = commitment - totalPaid`,
`remainingCommitment = commitment - totalCalled`. -/
def mcpStatement (commitment : ℚ) (responses : List ResponseWithCall) :
    LPStatement :=
  let totalCalled := responses.foldl (fun sum r => sum + r.capitalCall.amount) 0
  let totalPaid := responses.foldl (fun sum r => sum + r.amountPaid) 0
  { commitment := commitment, totalCalled := totalCalled, totalPaid := totalPaid,
    outstandingBalance := commitment - totalPaid,
    remainingCommitment := commitment - totalCalled }

/-- Modelled from the spec: the canonical `totalCalled` of the claim,
`Σ (call.amount × call.percentage / 100)` over the LP's capital calls. -/
def specTotalCalled (responses : List ResponseWithCall) : ℚ :=
  (responses.map
    (fun r => r.capitalCall.amount * r.capitalCall.percentage / 100)).sum

/-- A response to a call of 100 at percentage 50 with nothing paid yet. -/
def respHalfCall : ResponseWithCall :=
  { amountPaid := 0, datePaid := none, status := .PENDING,
    capitalCall := { id := 1, date := 0, dueDate := 30, amount := 100,
                     percentage := 50, status := .PENDING, fundId := 1 } }

/-- Counterexample to C3: for an LP with commitment 200 and one pending call
of amount 100 at percentage 50, the MCP `lp.statement` route reports
`outstandingBalance = 200`, not `totalCalled − totalPaid = 50`, and its
`totalCalled` is the raw 100, not 50. -/
theorem mcpStatement_breaks_canonical_formulas :
    ¬ ((mcpStatement 200 [respHalfCall]).outstandingBalance
          = specTotalCalled [respHalfCall]
            - (mcpStatement 200 [respHalfCall]).totalPaid ∧
       (mcpStatement 200 [respHalfCall]).totalCalled
          = specTotalCalled [respHalfCall]) := by
  intro h
  have := h.1
  norm_num [mcpStatement, specTotalCalled, respHalfCall] at this

/-- Claim C3 (amended): the CLI `lp statement` command satisfies the canonical
formulas — `totalCalled = Σ (call.amount × call.percentage / 100)`,
`outstandingBalance = totalCalled − totalPaid`,
`remainingCommitment = commitment − totalCalled`,
`totalPaid = Σ amountPaid` — while the MCP `lp.statement` route instead
computes `totalCalled = Σ call.amount`,
`outstandingBalance = commitment − totalPaid` and
`remainingCommitment = commitment − Σ call.amount`. -/
theorem lpStatement_formulas (commitment : ℚ)
    (responses : List ResponseWithCall) :
    (cliStatement commitment responses).totalCalled = specTotalCalled responses ∧
    (cliStatement commitment responses).totalPaid
      = (responses.map (·.amountPaid)).sum ∧
    (cliStatement commitment responses).outstandingBalance
      = specTotalCalled responses - (responses.map (·.amountPaid)).sum ∧
    (cliStatement commitment responses).remainingCommitment
      = commitment - specTotalCalled responses ∧
    (mcpStatement commitment responses).totalCalled
      = (responses.map (·.capitalCall.amount)).sum ∧
    (mcpStatement commitment responses).outstandingBalance
      = commitment - (responses.map (·.amountPaid)).sum ∧
    (mcpStatement commitment responses).remainingCommitment
      = commitment - (responses.map (·.capitalCall.amount)).sum := by
  refine ⟨?_, ?_, ?_, ?_, ?_, ?_, ?_⟩ <;>
    simp [cliStatement, mcpStatement, specTotalCalled, foldl_add_eq_sum,
      mul_div_assoc]

/-- `ValuationMethodSchema` (src/src/models/types.ts). -/
inductive ValuationMethod where
  | LAST_ROUND
  | MARK_TO_MARKET
  | COMPARABLE_COMPANIES
  | DCF
  | WRITE_OFF
  deriving DecidableEq

/-- One element of `NAVCalculationSchema.holdings`. -/
structure Holding where
  companyId : Nat
  value : ℚ
  method : ValuationMethod
  notes : Option Nat
  deriving DecidableEq

/-- `NAVCalculationSchema` (src/src/models/types.ts). -/
structure NAVCalculation where
  id : Nat
  fundId : Nat
  date : Int
  totalValue : ℚ
  currency : String
  holdings : List Holding
  deriving DecidableEq

/-- The private `calculations: Map<string, NAVCalculation>` of `NAVService`,
as an insertion-ordered association list. -/
structure NAVService where
  calculations : List (Nat × NAVCalculation)
  deriving DecidableEq

/-- JS `Map.prototype.set`: replace in place under an existing key, otherwise
append the binding at the end (insertion order is preserved). -/
def mapSet (k : Nat) (v : β) : List (Nat × β) → List (Nat × β)
  | [] => [(k, v)]
  | (k', v') :: rest =>
      if k' == k then (k, v) :: rest else (k', v') :: mapSet k v rest

/-- `NAVService.calculateNAV` (src/src/services/nav.ts) on an input the zod
schema accepts: sum the holdings' values with Decimal arithmetic (exact, so a
rational sum), build the calculation under the freshly generated id, and
`set` it into the map. -/
def calculateNAV (svc : NAVService) (id fundId : Nat) (date : Int)
    (holdings : List Holding) (currency : String) :
    NAVService × NAVCalculation :=
  let totalValue := holdings.foldl (fun sum holding => sum + holding.value) 0
  let calculation : NAVCalculation :=
    { id := id, fundId := fundId, date := date, totalValue := totalValue,
      currency := currency, holdings := holdings }
  ({ calculations := mapSet id calculation svc.calculations }, calculation)

lemma mapSet_of_fresh (k : Nat) (v : β) (l : List (Nat × β))
    (h : ∀ kv ∈ l, kv.1 ≠ k) : mapSet k v l = l ++ [(k, v)] := by
  induction l with
  | nil => rfl
  | cons kv rest ih =>
      have hk : (kv.1 == k) = false := by
        simp [h kv (List.mem_cons_self kv rest)]
      simp [mapSet, hk, ih (fun kv' h' => h kv' (List.mem_cons_of_mem kv h'))]

/-- Claim C6: for every valid `calculateNAV` call, the persisted calculation's
`totalValue` is the exact sum of `holding.value` over the holdings array
(0 for the empty array), and — the generated id being fresh — a new record is
appended on every call. -/
theorem calculateNAV_totalValue (svc : NAVService) (id fundId : Nat)
    (date : Int) (holdings : List Holding) (currency : String)
    (hfresh : ∀ kv ∈ svc.calculations, kv.1 ≠ id) :
    (calculateNAV svc id fundId date holdings currency).2.totalValue
      = (holdings.map (·.value)).sum ∧
    (holdings = [] →
      (calculateNAV svc id fundId date holdings currency).2.totalValue = 0) ∧
    (calculateNAV svc id fundId date holdings currency).1.calculations
      = svc.calculations
          ++ [(id, (calculateNAV svc id fundId date holdings currency).2)] ∧
    (calculateNAV svc id fundId date holdings currency).1.calculations.length
      = svc.calculations.length + 1 := by
  refine ⟨?_, ?_, ?_, ?_⟩
  · simp [calculateNAV, foldl_add_eq_sum]
  · intro h
    simp [calculateNAV, h]
  · simp [calculateNAV, mapSet_of_fresh _ _ _ hfresh]
  · simp [calculateNAV, mapSet_of_fresh _ _ _ hfresh]

/-- Two holdings worth 1,000,000 and 2,000,000. -/
def holdingsEx : List Holding :=
  [{ companyId := 1, value := 1000000, method := .LAST_ROUND, notes := none },
   { companyId := 2, value := 2000000, method := .COMPARABLE_COMPANIES,
     notes := none }]

/-- The NAV service with no calculations yet. -/
def navSvc0 : NAVService := { calculations := [] }

/-- The currency code used throughout the examples. -/
def usd : String := "USD"

/-- Witness for C6: on a fresh service, the two example holdings produce a
single appended record totalling 3,000,000. -/
theorem calculateNAV_totalValue_witness :
    (∀ kv ∈ navSvc0.calculations, kv.1 ≠ 101) ∧
    ((calculateNAV navSvc0 101 1 15 holdingsEx usd).2.totalValue
        = (holdingsEx.map (·.value)).sum ∧
     (holdingsEx = [] →
       (calculateNAV navSvc0 101 1 15 holdingsEx usd).2.totalValue = 0) ∧
     (calculateNAV navSvc0 101 1 15 holdingsEx usd).1.calculations
       = navSvc0.calculations
           ++ [(101, (calculateNAV navSvc0 101 1 15 holdingsEx usd).2)] ∧
     (calculateNAV navSvc0 101 1 15 holdingsEx usd).1.calculations.length
       = navSvc0.calculations.length + 1) :=
  ⟨fun kv h => absurd h (List.not_mem_nil kv),
   calculateNAV_totalValue navSvc0 101 1 15 holdingsEx usd
     (fun kv h => absurd h (List.not_mem_nil kv))⟩

/-- The newest-first comparator `(a, b) => b.date.getTime() - a.date.getTime()`
used on calculations. -/
def navNewestFirst (a b : NAVCalculation) : Prop := b.date ≤ a.date

instance : DecidableRel navNewestFirst := fun a b => Int.decLe b.date a.date

instance : IsTotal NAVCalculation navNewestFirst :=
  ⟨fun a b => Int.le_total b.date a.date⟩

instance : IsTrans NAVCalculation navNewestFirst :=
  ⟨fun _ _ _ h1 h2 => le_trans h2 h1⟩

/-- What `getCompanyValuation` returns for a company. -/
structure CompanyValuation where
  value : ℚ
  currency : String
  method : ValuationMethod
  calculationId : Nat
  date : Int
  deriving DecidableEq

/-- `NAVService.getCompanyValuation` (src/src/services/nav.ts): sort all
calculations newest-first, then return the first holding matching
`companyId`. The source line
`if (date) { allCalculations.filter(calc => calc.date <= date); }` calls
`filter` but discards the array it returns, so on an immutable-list model the
statement has no effect and the supplied `date` never constrains the scan;
the embedding reflects that. -/
def getCompanyValuation (svc : NAVService) (companyId : Nat)
    (date : Option Int) : Option CompanyValuation :=
  let allCalculations :=
    (svc.calculations.map Prod.snd).insertionSort navNewestFirst
  allCalculations.findSome? fun c =>
    (c.holdings.find? (fun h => h.companyId == companyId)).map fun holding =>
      { value := holding.value, currency := c.currency,
        method := holding.method, calculationId := c.id, date := c.date }

/-- The two calculations of the `nav.test.ts` regression test
"should get company valuation at specific date": company 1 is worth 1,000,000
on day 15 and 2,000,000 on day 20. -/
def navSvcTwoDates : NAVService :=
  { calculations :=
      [(101, { id := 101, fundId := 1, date := 15, totalValue := 1000000,
               currency := "USD",
               holdings := [{ companyId := 1, value := 1000000,
                              method := .LAST_ROUND, notes := none }] }),
       (102, { id := 102, fundId := 1, date := 20, totalValue := 2000000,
               currency := "USD",
               holdings := [{ companyId := 1, value := 2000000,
                              method := .LAST_ROUND, notes := none }] })] }

/-- Claim C7, evaluated at the failing input of the unit test: asking for
company 1 as of day 16 returns the day-20 valuation of 2,000,000 — the
discarded `filter` means `asOfDate` is ignored, contradicting both the claim
and the test, which expect the day-15 valuation of 1,000,000. -/
theorem getCompanyValuation_ignores_asOfDate :
    getCompanyValuation navSvcTwoDates 1 (some 16)
      = some { value := 2000000, currency := "USD", method := .LAST_ROUND,
               calculationId := 102, date := 20 } ∧
    (2000000 : ℚ) ≠ 1000000 := by
  constructor
  · rfl
  · norm_num

/-- `UpdateSchema.type` (src/src/models/types.ts). -/
inductive UpdateType where
  | MONTHLY
  | QUARTERLY
  | ANNUAL
  | ADHOC
  deriving DecidableEq

/-- `MetricSchema` (src/src/models/types.ts). -/
structure Metric where
  name : String
  value : ℚ
  date : Int
  deriving DecidableEq

/-- `UpdateSchema` (src/src/models/types.ts), the fields the services use. -/
structure Update where
  id : Nat
  companyId : Nat
  date : Int
  type : UpdateType
  metrics : List Metric
  deriving DecidableEq

/-- The private `updates: Map<string, Update>` of `UpdatesService`. -/
structure UpdatesService where
  updates : List (Nat × Update)
  deriving DecidableEq

/-- Newest-first comparator on updates,
`(a, b) => b.date.getTime() - a.date.getTime()`. -/
def updNewestFirst (a b : Update) : Prop := b.date ≤ a.date

instance : DecidableRel updNewestFirst := fun a b => Int.decLe b.date a.date

instance : IsTotal Update updNewestFirst :=
  ⟨fun a b => Int.le_total b.date a.date⟩

instance : IsTrans Update updNewestFirst :=
  ⟨fun _ _ _ h1 h2 => le_trans h2 h1⟩

/-- Oldest-first comparator on metrics,
`(a, b) => a.date.getTime() - b.date.getTime()`. -/
def metricOldestFirst (a b : Metric) : Prop := a.date ≤ b.date

instance : DecidableRel metricOldestFirst := fun a b => Int.decLe a.date b.date

instance : IsTotal Metric metricOldestFirst :=
  ⟨fun a b => Int.le_total a.date b.date⟩

instance : IsTrans Metric metricOldestFirst :=
  ⟨fun _ _ _ h1 h2 => le_trans h1 h2⟩

/-- `UpdatesService.listUpdates` (unnamed updates-service file): filter by
company, type and inclusive date range, then sort newest-first. -/
def listUpdates (svc : UpdatesService) (companyId : Option Nat)
    (type : Option UpdateType) (startDate endDate : Option Int) :
    List Update :=
  let updates : List Update := svc.updates.map Prod.snd
  let updates : List Update := match companyId with
    | some c => updates.filter (fun u => u.companyId == c)
    | none => updates
  let updates : List Update := match type with
    | some t => updates.filter (fun u => u.type == t)
    | none => updates
  let updates : List Update := match startDate with
    | some s => updates.filter (fun u => decide (s ≤ u.date))
    | none => updates
  let updates : List Update := match endDate with
    | some e => updates.filter (fun u => decide (u.date ≤ e))
    | none => updates
  updates.insertionSort updNewestFirst

/-- `UpdatesService.getMetricHistory` (unnamed updates-service file): take the
company's updates in range, flatten their metrics, keep the named metric, and
sort oldest-first. -/
def getMetricHistory (svc : UpdatesService) (companyId : Nat)
    (metricName : String) (startDate endDate : Option Int) : List Metric :=
  let updates := listUpdates svc (some companyId) none startDate endDate
  ((updates.flatMap (·.metrics)).filter
      (fun m => m.name == metricName)).insertionSort metricOldestFirst

/-- Claim C9: `getMetricHistory` returns the matching metric values sorted
oldest-first by date, while `listUpdates` (which backs `getLatestMetrics`)
returns updates sorted newest-first by date — deliberately asymmetric
orderings. -/
theorem metricHistory_listUpdates_ordering (svc : UpdatesService)
    (companyId : Nat) (metricName : String) (type : Option UpdateType)
    (startDate endDate : Option Int) :
    (getMetricHistory svc companyId metricName startDate endDate).Pairwise
        (fun a b => a.date ≤ b.date) ∧
    ((getMetricHistory svc companyId metricName startDate endDate).all
        (fun m => m.name == metricName)) = true ∧
    (listUpdates svc (some companyId) type startDate endDate).Pairwise
        (fun a b => b.date ≤ a.date) := by
  refine ⟨?_, ?_, ?_⟩
  · exact List.sorted_insertionSort metricOldestFirst _
  · simp only [List.all_eq_true]
    intro m hm
    have hm' := (List.mem_insertionSort metricOldestFirst).1 hm
    exact (List.mem_filter.1 hm').2
  · exact List.sorted_insertionSort updNewestFirst _

end Valentine
